import Mathlib

/-!
Verification of the Razorpay payment-provider service
(src/modules/razorpay-payment/service.ts).

The provider is a thin adapter: each method is embedded as a pure Lean
function. External effects are made explicit parameters:
  * the gateway `orders.fetch` call becomes an `Except Unit RazorpayOrder`
    argument (ok = the fetched order, error = the SDK call threw);
  * node's `crypto` HMAC-SHA256-hex primitive becomes an abstract function
    argument `hmacSha256Hex : String → String → String` (secret, body);
  * `new Date().toISOString()` becomes a `now : String` argument.
Stored session data (the JS object spread `{...data, k: v}`) is embedded as
a partial map `String → Option JsValue`; spreading with an extra key is
function override.
-/

namespace Razorpay

/-- A JavaScript field value stored in a session data object: either a
string or a number (amounts). -/
inductive JsValue where
  | str : String → JsValue
  | num : Nat → JsValue
deriving DecidableEq

/-- The stored `data` object of a payment session: a partial map from
field names to values. -/
abbrev StoredData := String → Option JsValue

/-- A Razorpay order as returned by `razorpay.orders.fetch`; only the
fields the service reads. -/
structure RazorpayOrder where
  id : String
  status : String
deriving DecidableEq

/-- `data.payload?.payment?.entity` of a webhook body: the fields the
service reads, each possibly absent. -/
structure PaymentEntity where
  order_id : Option String
  amount : Option Nat
deriving DecidableEq

/-- `data.payload?.order?.entity` of a webhook body. -/
structure OrderEntity where
  receipt : Option String
deriving DecidableEq

/-- The webhook payload handed to `getWebhookActionAndData`: the parsed
body (`data`), the raw body string (`rawData`, after `toString()`), and the
`x-razorpay-signature` header (absent = `undefined`). -/
structure WebhookPayload where
  event : String
  paymentEntity : Option PaymentEntity
  orderEntity : Option OrderEntity
  rawData : String
  signatureHeader : Option String

/-- The `data` part of a `WebhookActionResult`. `session_id` is
`Option String` because the JS expression can evaluate to `undefined`. -/
structure WebhookData where
  session_id : Option String
  amount : Nat
deriving DecidableEq

/-- The result of `getWebhookActionAndData`. -/
structure WebhookActionResult where
  action : String
  data : WebhookData
deriving DecidableEq

/-- JavaScript `a || b` on possibly-undefined strings: `a` unless `a` is
absent or the empty string (falsy), in which case `b`. -/
def jsOrString (a b : Option String) : Option String :=
  match a with
  | some s => if s = "" then b else some s
  | none => b

/-- The signature check of service.ts lines 236-248: with no
`webhook_secret` the guard is skipped (vacuously verified); with a secret,
the header must be present and equal to the hex HMAC-SHA256 of the raw
body under the secret (`expectedSignature !== generatedSignature` throws,
and an absent header is `undefined`, never equal to a hex string). -/
def webhookVerified (hmacSha256Hex : String → String → String)
    (webhook_secret : Option String) (p : WebhookPayload) : Bool :=
  match webhook_secret with
  | none => true
  | some secret =>
    match p.signatureHeader with
    | some sig => decide (sig = hmacSha256Hex secret p.rawData)
    | none => false

/-- `getWebhookActionAndData` (service.ts lines 229-301). A failed
signature check throws, and the catch block returns
`{action: "failed", session_id: "", amount: 0}`; otherwise the event name
is dispatched: the three `payment.*` events map to their action with
`session_id = orderEntity?.receipt || paymentEntity?.order_id` and
`amount = paymentEntity?.amount || 0`, and any other event returns
`not_supported` with empty session and amount 0. -/
def getWebhookActionAndData (hmacSha256Hex : String → String → String)
    (webhook_secret : Option String) (p : WebhookPayload) :
    WebhookActionResult :=
  if webhookVerified hmacSha256Hex webhook_secret p then
    let sessionId := jsOrString (p.orderEntity.bind OrderEntity.receipt)
      (p.paymentEntity.bind PaymentEntity.order_id)
    let amount := (p.paymentEntity.bind PaymentEntity.amount).getD 0
    if p.event = "payment.authorized" then
      ⟨"authorized", ⟨sessionId, amount⟩⟩
    else if p.event = "payment.captured" then
      ⟨"captured", ⟨sessionId, amount⟩⟩
    else if p.event = "payment.failed" then
      ⟨"failed", ⟨sessionId, amount⟩⟩
    else
      ⟨"not_supported", ⟨some "", 0⟩⟩
  else
    ⟨"failed", ⟨some "", 0⟩⟩

/-- Output of `getPaymentStatus`: the error path returns only a status
(`return { status: "pending" }`), so `data` is optional. -/
structure GetPaymentStatusOutput where
  status : String
  data : Option StoredData

/-- `getPaymentStatus` (service.ts lines 187-227): on a successful fetch
the switch maps created/attempted to pending, paid to authorized, and
everything else (default) to pending, returning the stored data spread
with `order_status`; on a fetch error the catch returns pending with no
data. -/
def getPaymentStatus (fetchResult : Except Unit RazorpayOrder)
    (data : StoredData) : GetPaymentStatusOutput :=
  match fetchResult with
  | Except.ok order =>
    let status :=
      if order.status = "created" then "pending"
      else if order.status = "attempted" then "pending"
      else if order.status = "paid" then "authorized"
      else "pending"
    ⟨status, some (fun k =>
      if k = "order_status" then some (JsValue.str order.status)
      else data k)⟩
  | Except.error _ => ⟨"pending", none⟩

/-- Output of `authorizePayment`. -/
structure AuthorizePaymentOutput where
  status : String
  data : StoredData

/-- `authorizePayment` (service.ts lines 125-157): if the fetch succeeds
the payment is considered authorized no matter what the order's status is
(the comment says "we'll consider the payment authorized if the order
exists"); a fetch error is rethrown as a MedusaError. -/
def authorizePayment (fetchResult : Except Unit RazorpayOrder)
    (data : StoredData) (now : String) :
    Except Unit AuthorizePaymentOutput :=
  match fetchResult with
  | Except.ok order =>
    Except.ok ⟨"authorized", fun k =>
      if k = "authorized_at" then some (JsValue.str now)
      else if k = "order_status" then some (JsValue.str order.status)
      else data k⟩
  | Except.error e => Except.error e

/-- `deletePayment` (service.ts lines 349-355): returns the input data
unchanged. -/
def deletePayment (data : StoredData) : StoredData := data

/-- `cancelPayment` (service.ts lines 357-366): returns the stored data
spread with a `cancelled_at` timestamp; no gateway call. -/
def cancelPayment (data : StoredData) (now : String) : StoredData :=
  fun k => if k = "cancelled_at" then some (JsValue.str now) else data k

/-- `refundPayment` (service.ts lines 368-389): returns the stored data
spread with `refunded_amount` (the requested amount) and `refunded_at`;
no call to the gateway's refund endpoint. -/
def refundPayment (amount : Nat) (data : StoredData) (now : String) :
    StoredData :=
  fun k =>
    if k = "refunded_at" then some (JsValue.str now)
    else if k = "refunded_amount" then some (JsValue.num amount)
    else data k

/-- The Razorpay SDK operations relevant to order/payment lifecycle. -/
inductive GatewayCall where
  | createOrder
  | fetchOrder
  | createRefund
  | captureCall
deriving DecidableEq

/-- The methods of the provider service class. -/
inductive ProviderMethod where
  | initiatePayment
  | authorizePayment
  | capturePayment
  | getPaymentStatus
  | getWebhookActionAndData
  | updatePayment
  | retrievePayment
  | deletePayment
  | cancelPayment
  | refundPayment
deriving DecidableEq

/-- The gateway SDK calls each service method makes, transcribed from the
method bodies in service.ts: `initiatePayment` calls `orders.create`;
`authorizePayment`, `getPaymentStatus` and `retrievePayment` call
`orders.fetch`; every other method touches only its input. -/
def gatewayCalls : ProviderMethod → List GatewayCall
  | ProviderMethod.initiatePayment => [GatewayCall.createOrder]
  | ProviderMethod.authorizePayment => [GatewayCall.fetchOrder]
  | ProviderMethod.getPaymentStatus => [GatewayCall.fetchOrder]
  | ProviderMethod.retrievePayment => [GatewayCall.fetchOrder]
  | _ => []

/-- The webhook event-to-action table as the spec states it, used to
compare the service against the spec's table. -/
def specEventAction (e : String) : Option String :=
  if e = "payment.authorized" then some "authorized"
  else if e = "payment.captured" then some "captured"
  else if e = "payment.failed" then some "failed"
  else none

end Razorpay

namespace Razorpay

/-- C1: with a webhook secret configured, whenever the signature header
differs from the hex HMAC-SHA256 of the raw body under the secret (in
particular when the header is absent), `getWebhookActionAndData` returns
action "failed" with empty session_id and amount 0. -/
theorem webhook_signature_mismatch_rejected
    (hmacSha256Hex : String → String → String) (secret : String)
    (p : WebhookPayload)
    (hmis : p.signatureHeader ≠ some (hmacSha256Hex secret p.rawData)) :
    getWebhookActionAndData hmacSha256Hex (some secret) p =
      ⟨"failed", ⟨some "", 0⟩⟩ := by
  have hv : webhookVerified hmacSha256Hex (some secret) p = false := by
    unfold webhookVerified
    cases hsig : p.signatureHeader with
    | none => rfl
    | some s =>
      simp only [decide_eq_false_iff_not]
      intro he
      exact hmis (by rw [hsig, he])
  unfold getWebhookActionAndData
  rw [hv]
  simp

theorem webhook_signature_mismatch_rejected_witness :
    getWebhookActionAndData (fun _ _ => "aaa") (some "sekret")
      ⟨"payment.captured", none, none, "body", some "bad"⟩ =
      ⟨"failed", ⟨some "", 0⟩⟩ :=
  webhook_signature_mismatch_rejected (fun _ _ => "aaa") "sekret"
    ⟨"payment.captured", none, none, "body", some "bad"⟩ (by decide)

/-- Helper: on a verified payload whose event is in the spec's table,
`getWebhookActionAndData` returns that action with the JS-or of receipt
and order_id as session and the payment amount (default 0). -/
theorem getWebhookActionAndData_of_verified
    (hmacSha256Hex : String → String → String)
    (webhook_secret : Option String) (p : WebhookPayload) (a : String)
    (hver : webhookVerified hmacSha256Hex webhook_secret p = true)
    (ha : specEventAction p.event = some a) :
    getWebhookActionAndData hmacSha256Hex webhook_secret p =
      ⟨a, ⟨jsOrString (p.orderEntity.bind OrderEntity.receipt)
          (p.paymentEntity.bind PaymentEntity.order_id),
        (p.paymentEntity.bind PaymentEntity.amount).getD 0⟩⟩ := by
  unfold getWebhookActionAndData
  rw [hver]
  unfold specEventAction at ha
  by_cases h1 : p.event = "payment.authorized"
  · simp [h1] at ha ⊢
    exact ha
  · by_cases h2 : p.event = "payment.captured"
    · simp [h1, h2] at ha ⊢
      exact ha
    · by_cases h3 : p.event = "payment.failed"
      · simp [h1, h2, h3] at ha ⊢
        exact ha
      · simp [h1, h2, h3] at ha

/-- C2: on an authenticated payload with event payment.authorized,
payment.captured or payment.failed, the action is authorized, captured or
failed respectively; session_id is the order entity's receipt, falling
back to the payment entity's order_id when the receipt is absent (or
empty, hence falsy); amount is the payment entity's amount passed through
with no unit conversion. -/
theorem webhook_event_mapping
    (hmacSha256Hex : String → String → String)
    (webhook_secret : Option String) (p : WebhookPayload) (a : String)
    (hver : webhookVerified hmacSha256Hex webhook_secret p = true)
    (ha : specEventAction p.event = some a) :
    (getWebhookActionAndData hmacSha256Hex webhook_secret p).action = a ∧
    (∀ rc, p.orderEntity.bind OrderEntity.receipt = some rc → rc ≠ "" →
      (getWebhookActionAndData hmacSha256Hex
        webhook_secret p).data.session_id = some rc) ∧
    (p.orderEntity.bind OrderEntity.receipt = none →
      (getWebhookActionAndData hmacSha256Hex
        webhook_secret p).data.session_id =
        p.paymentEntity.bind PaymentEntity.order_id) ∧
    (∀ pe amt, p.paymentEntity = some pe → pe.amount = some amt →
      (getWebhookActionAndData hmacSha256Hex
        webhook_secret p).data.amount = amt) := by
  rw [getWebhookActionAndData_of_verified hmacSha256Hex webhook_secret
    p a hver ha]
  refine ⟨rfl, ?_, ?_, ?_⟩
  · intro rc hrc hne
    simp only [jsOrString, hrc, if_neg hne]
  · intro hnone
    simp only [jsOrString, hnone]
  · intro pe amt hpe hamt
    simp [hpe, hamt]

theorem webhook_event_mapping_witness :
    webhookVerified (fun _ _ => "h") none
      ⟨"payment.authorized", some ⟨some "order_A", some 500⟩,
        some ⟨some "receipt_1"⟩, "", none⟩ = true ∧
    (getWebhookActionAndData (fun _ _ => "h") none
      ⟨"payment.authorized", some ⟨some "order_A", some 500⟩,
        some ⟨some "receipt_1"⟩, "", none⟩).action = "authorized" :=
  ⟨rfl, (webhook_event_mapping (fun _ _ => "h") none
    ⟨"payment.authorized", some ⟨some "order_A", some 500⟩,
      some ⟨some "receipt_1"⟩, "", none⟩ "authorized" rfl rfl).1⟩

/-- C3: on an authenticated payload whose event is none of the three
payment events, the result is not_supported with empty session_id and
amount 0. -/
theorem webhook_unknown_event_not_supported
    (hmacSha256Hex : String → String → String)
    (webhook_secret : Option String) (p : WebhookPayload)
    (hver : webhookVerified hmacSha256Hex webhook_secret p = true)
    (h1 : p.event ≠ "payment.authorized")
    (h2 : p.event ≠ "payment.captured")
    (h3 : p.event ≠ "payment.failed") :
    getWebhookActionAndData hmacSha256Hex webhook_secret p =
      ⟨"not_supported", ⟨some "", 0⟩⟩ := by
  unfold getWebhookActionAndData
  rw [hver]
  simp [h1, h2, h3]

theorem webhook_unknown_event_not_supported_witness :
    getWebhookActionAndData (fun _ _ => "h") none
      ⟨"refund.processed", some ⟨some "order_A", some 500⟩, none, "",
        none⟩ = ⟨"not_supported", ⟨some "", 0⟩⟩ :=
  webhook_unknown_event_not_supported (fun _ _ => "h") none
    ⟨"refund.processed", some ⟨some "order_A", some 500⟩, none, "", none⟩
    rfl (by decide) (by decide) (by decide)

/-- C4: when the gateway order fetch succeeds, `getPaymentStatus` maps the
gateway status created to pending, attempted to pending, and paid to
authorized. -/
theorem payment_status_mapping (o : RazorpayOrder) (data : StoredData) :
    (o.status = "created" →
      (getPaymentStatus (Except.ok o) data).status = "pending") ∧
    (o.status = "attempted" →
      (getPaymentStatus (Except.ok o) data).status = "pending") ∧
    (o.status = "paid" →
      (getPaymentStatus (Except.ok o) data).status = "authorized") := by
  refine ⟨?_, ?_, ?_⟩ <;> intro h <;> simp [getPaymentStatus, h]

theorem payment_status_mapping_witness :
    (getPaymentStatus (Except.ok ⟨"order_A", "paid"⟩)
      (fun _ => none)).status = "authorized" :=
  (payment_status_mapping ⟨"order_A", "paid"⟩ (fun _ => none)).2.2 rfl

/-- C5: when the gateway order fetch throws, `getPaymentStatus` swallows
the error and returns status pending (with no data field). -/
theorem payment_status_fetch_error_pending (e : Unit)
    (data : StoredData) :
    getPaymentStatus (Except.error e) data = ⟨"pending", none⟩ := rfl

/-- C6: `deletePayment` returns its input's stored data unchanged;
`cancelPayment` only adds a `cancelled_at` field, leaving every other
field unchanged; and neither method makes a gateway call, the only
gateway order-lifecycle operations used anywhere in the service being
create order and fetch order. -/
theorem cancel_delete_no_gateway_calls :
    (∀ data : StoredData, deletePayment data = data) ∧
    (∀ (data : StoredData) (now : String),
      cancelPayment data now "cancelled_at" = some (JsValue.str now) ∧
      ∀ k, k ≠ "cancelled_at" → cancelPayment data now k = data k) ∧
    gatewayCalls ProviderMethod.deletePayment = [] ∧
    gatewayCalls ProviderMethod.cancelPayment = [] ∧
    (∀ (m : ProviderMethod) (c : GatewayCall), c ∈ gatewayCalls m →
      c = GatewayCall.createOrder ∨ c = GatewayCall.fetchOrder) := by
  refine ⟨fun _ => rfl, fun data now => ⟨rfl, fun k hk => ?_⟩,
    rfl, rfl, fun m c hc => ?_⟩
  · simp [cancelPayment, hk]
  · cases m <;> simp [gatewayCalls] at hc <;> simp [hc]

theorem cancel_delete_no_gateway_calls_witness :
    cancelPayment (fun _ => none) "2025-01-01" "other_field" = none :=
  (cancel_delete_no_gateway_calls.2.1 (fun _ => none) "2025-01-01").2
    "other_field" (by decide)

/-- C7: `getPaymentStatus` only ever returns status pending or
authorized, whatever the fetch result, and `getWebhookActionAndData` only
ever returns one of the actions authorized, captured, failed or
not_supported, whatever the payload. -/
theorem status_vocabulary :
    (∀ (fetchResult : Except Unit RazorpayOrder) (data : StoredData),
      (getPaymentStatus fetchResult data).status = "pending" ∨
      (getPaymentStatus fetchResult data).status = "authorized") ∧
    (∀ (hmacSha256Hex : String → String → String)
      (webhook_secret : Option String) (p : WebhookPayload),
      (getWebhookActionAndData hmacSha256Hex webhook_secret p).action ∈
        (["authorized", "captured", "failed", "not_supported"] :
          List String)) := by
  constructor
  · intro fetchResult data
    cases fetchResult with
    | ok o =>
      simp only [getPaymentStatus]
      split_ifs <;> simp
    | error e => exact Or.inl rfl
  · intro hmacSha256Hex webhook_secret p
    unfold getWebhookActionAndData
    split_ifs <;> simp

/-- C8: with no webhook_secret configured, no signature verification
happens: two payloads identical except for their signature header (absent
included) produce identical results. -/
theorem webhook_no_secret_ignores_signature
    (hmacSha256Hex : String → String → String) (p : WebhookPayload)
    (s1 s2 : Option String) :
    getWebhookActionAndData hmacSha256Hex none
      { p with signatureHeader := s1 } =
    getWebhookActionAndData hmacSha256Hex none
      { p with signatureHeader := s2 } := rfl

/-- C9: whenever the gateway order fetch succeeds, `authorizePayment`
returns status authorized, whatever the fetched order's status (including
created or attempted orders that are not yet paid). -/
theorem authorize_ignores_order_status (o : RazorpayOrder)
    (data : StoredData) (now : String) :
    ∃ out, authorizePayment (Except.ok o) data now = Except.ok out ∧
      out.status = "authorized" :=
  ⟨_, rfl, rfl⟩

/-- C10: `refundPayment` is a total pure function that never contacts the
gateway (its method body makes no SDK call): it returns the stored data
with `refunded_amount` set to the requested amount and `refunded_at` set
to the timestamp, every other field unchanged. -/
theorem refund_pure_no_gateway_call :
    (∀ (amount : Nat) (data : StoredData) (now : String),
      refundPayment amount data now "refunded_amount" =
        some (JsValue.num amount) ∧
      refundPayment amount data now "refunded_at" =
        some (JsValue.str now) ∧
      ∀ k, k ≠ "refunded_amount" → k ≠ "refunded_at" →
        refundPayment amount data now k = data k) ∧
    gatewayCalls ProviderMethod.refundPayment = [] := by
  refine ⟨fun amount data now => ⟨rfl, rfl, fun k h1 h2 => ?_⟩, rfl⟩
  simp [refundPayment, h1, h2]

theorem refund_pure_no_gateway_call_witness :
    refundPayment 250 (fun _ => none) "2025-01-01" "other_field" = none :=
  (refund_pure_no_gateway_call.1 250 (fun _ => none) "2025-01-01").2.2
    "other_field" (by decide) (by decide)

end Razorpay
